import Mathlib

/-!
Verification of the VM scheduler (src/main.py): label matching, per-zone
instance discovery, per-instance scale decisions, and the orchestrating
`process_scale_action`, embedded shallowly with the control plane as an
explicit collaborator and control-plane calls tracked in a trace.
-/

namespace CloudScheduler

/-- A target label pair, as carried in the request's `vm_labels` entries or
parsed from the `VM_LABELS` environment string. -/
structure Label where
  key : String
  value : String
  deriving Repr, DecidableEq

/-- An instance as listed by the control plane in one zone: name, label
mapping (a dictionary, modelled as an association list) and status string. -/
structure VMInstance where
  name : String
  labels : List (String × String)
  status : String
  deriving Repr, DecidableEq

/-- A discovered-instance record, as appended by `get_instances_by_labels`:
the dict `{'name': ..., 'zone': ..., 'status': ...}`. -/
structure DiscoveredInstance where
  name : String
  zone : String
  status : String
  deriving Repr, DecidableEq

/-- Result of one `VMScheduler` control-plane operation wrapper:
`{'status': 'success', 'operation': ...}` or `{'status': 'error', 'message': ...}`. -/
inductive OpResult where
  | success (operation : String)
  | error (message : String)
  deriving Repr, DecidableEq

/-- One call made to the control plane, recorded so theorems can speak about
which operations a run invokes. -/
inductive CPCall where
  | listCall (zone : String)
  | stopCall (zone name : String)
  | startCall (zone name : String)
  | suspendCall (zone name : String)
  | resumeCall (zone name : String)
  deriving Repr, DecidableEq

/-- The compute control plane consumed by the scheduler: `list` per zone and
the four per-instance operations, each of which may fail (raise) with an
error message, modelled with `Except`. An `Except.ok` of an operation carries
the operation name returned by the API. -/
structure ControlPlane where
  list : String → Except String (List VMInstance)
  stop : String → String → Except String String
  start : String → String → Except String String
  suspend : String → String → Except String String
  resume : String → String → Except String String

/-- The process environment variables read by `main.py`: `GCP_PROJECT`,
`VM_LABELS`, `VM_ZONES`, `SCALE_DOWN_ACTION`, `SCALE_UP_ACTION`.
`none` models an unset variable. -/
structure Env where
  gcpProject : Option String
  vmLabels : Option String
  vmZones : Option String
  scaleDownAction : Option String
  scaleUpAction : Option String

/-- `VMScheduler._matches_labels`: returns `false` when the instance has no
labels; otherwise every target pair must be present with exactly equal value
(`instance_labels.get(key) != value` fails the match). -/
def matchesLabels (instance_labels : List (String × String))
    (target_labels : List Label) : Bool :=
  if instance_labels.isEmpty then
    false
  else
    target_labels.all (fun l => instance_labels.lookup l.key == some l.value)

/-- One zone's contribution inside `get_instances_by_labels`: on a listing
failure the exception is caught and the zone contributes nothing; on success
the matching instances are appended as discovered-instance records. -/
def zoneDiscovery (cp : ControlPlane) (labels : List Label) (zone : String) :
    List DiscoveredInstance :=
  match cp.list zone with
  | Except.error _ => []
  | Except.ok insts =>
      (insts.filter (fun i => matchesLabels i.labels labels)).map
        (fun i => { name := i.name, zone := zone, status := i.status })

/-- `VMScheduler.get_instances_by_labels`: iterates the zones in order,
issuing one `list` call per zone (traced), accumulating each zone's matching
instances; a zone whose listing fails contributes zero results. -/
def get_instances_by_labels (cp : ControlPlane) (zones : List String)
    (labels : List Label) : List DiscoveredInstance × List CPCall :=
  (zones.foldl (fun acc zone => acc ++ zoneDiscovery cp labels zone) [],
   zones.map CPCall.listCall)

/-- `VMScheduler.stop_instance`: issues the stop call; a raised error is
caught and converted to an error result carrying the message. -/
def stop_instance (cp : ControlPlane) (zone instance_name : String) : OpResult :=
  match cp.stop zone instance_name with
  | Except.ok operation => OpResult.success operation
  | Except.error e => OpResult.error e

/-- `VMScheduler.start_instance`, with the same error-catching shape. -/
def start_instance (cp : ControlPlane) (zone instance_name : String) : OpResult :=
  match cp.start zone instance_name with
  | Except.ok operation => OpResult.success operation
  | Except.error e => OpResult.error e

/-- `VMScheduler.suspend_instance`, with the same error-catching shape. -/
def suspend_instance (cp : ControlPlane) (zone instance_name : String) : OpResult :=
  match cp.suspend zone instance_name with
  | Except.ok operation => OpResult.success operation
  | Except.error e => OpResult.error e

/-- `VMScheduler.resume_instance`, with the same error-catching shape. -/
def resume_instance (cp : ControlPlane) (zone instance_name : String) : OpResult :=
  match cp.resume zone instance_name with
  | Except.ok operation => OpResult.success operation
  | Except.error e => OpResult.error e

/-- Splitting a character sequence at every occurrence of a separator, the
semantics of Python `str.split(sep)` for a one-character separator. -/
def splitChars (sep : Char) : List Char → List (List Char)
  | [] => [[]]
  | c :: cs =>
      if c = sep then
        [] :: splitChars sep cs
      else
        match splitChars sep cs with
        | [] => [[c]]
        | p :: ps => (c :: p) :: ps

/-- Python `str.strip()`: drop whitespace from both ends. -/
def stripChars (l : List Char) : List Char :=
  ((l.dropWhile Char.isWhitespace).reverse.dropWhile Char.isWhitespace).reverse

/-- One entry of the `VM_LABELS` string: entries without a colon are dropped;
otherwise `label.split(':', 1)` yields the key before the first colon and the
value after it, both stripped. -/
def parseLabelEntry (entry : List Char) : Option Label :=
  if entry.contains ':' then
    some { key := String.mk (stripChars (entry.takeWhile (fun c => !(c = ':')))),
           value := String.mk (stripChars ((entry.dropWhile (fun c => !(c = ':'))).drop 1)) }
  else
    none

/-- Parsing of the `VM_LABELS` environment string (comma-separated entries). -/
def parse_vm_labels (s : String) : List Label :=
  (splitChars ',' s.toList).filterMap parseLabelEntry

/-- Parsing of the `VM_ZONES` environment string: split on commas and strip. -/
def parse_zones (s : String) : List String :=
  (splitChars ',' s.toList).map (fun z => String.mk (stripChars z))

/-- Python truthiness of an optional string: `None` and `""` are falsy. -/
def truthyString (o : Option String) : Option String :=
  match o with
  | some s => if s.isEmpty then none else some s
  | none => none

/-- Project-id resolution in `process_scale_action`: the request value when
truthy, else `GCP_PROJECT` from the environment, with the final truthiness
check before the configuration-error return. -/
def resolveProjectId (env : Env) (project_id : Option String) : Option String :=
  match truthyString project_id with
  | some s => some s
  | none => truthyString env.gcpProject

/-- Label-selector resolution: a falsy `vm_labels` argument (absent or empty
list) falls back to parsing `VM_LABELS` (default `auto-schedule:true`). -/
def resolveVmLabels (env : Env) (vm_labels : Option (List Label)) : List Label :=
  match vm_labels with
  | some l => if l.isEmpty then parse_vm_labels (env.vmLabels.getD "auto-schedule:true") else l
  | none => parse_vm_labels (env.vmLabels.getD "auto-schedule:true")

/-- Zone-list resolution: a falsy `zones` argument falls back to parsing
`VM_ZONES` (default `us-central1-a,us-central1-b`). -/
def resolveZones (env : Env) (zones : Option (List String)) : List String :=
  match zones with
  | some z => if z.isEmpty then parse_zones (env.vmZones.getD "us-central1-a,us-central1-b") else z
  | none => parse_zones (env.vmZones.getD "us-central1-a,us-central1-b")

/-- The instance states that make `scale_down` skip:
`status in ['STOPPED', 'TERMINATED', 'SUSPENDED']`. -/
def restStates : List String := ["STOPPED", "TERMINATED", "SUSPENDED"]

/-- The per-instance body of the loop in `process_scale_action`: `none` when
the skip checks fire (the loop `continue`s, recording nothing), otherwise the
operation result together with the control-plane call it made. The unknown-
action branch makes no call and yields the error result. -/
def processInstance (cp : ControlPlane) (env : Env) (action : String)
    (inst : DiscoveredInstance) : Option (OpResult × List CPCall) :=
  if action == "scale_down" && restStates.contains inst.status then
    none
  else if action == "scale_up" && inst.status == "RUNNING" then
    none
  else if action == "scale_down" then
    let action_type := env.scaleDownAction.getD "STOP"
    if action_type == "SUSPEND" then
      some (suspend_instance cp inst.zone inst.name, [CPCall.suspendCall inst.zone inst.name])
    else
      some (stop_instance cp inst.zone inst.name, [CPCall.stopCall inst.zone inst.name])
  else if action == "scale_up" then
    let action_type := env.scaleUpAction.getD "START"
    if action_type == "RESUME" then
      some (resume_instance cp inst.zone inst.name, [CPCall.resumeCall inst.zone inst.name])
    else
      some (start_instance cp inst.zone inst.name, [CPCall.startCall inst.zone inst.name])
  else
    some (OpResult.error ("Unknown action: " ++ action), [])

/-- One appended entry of the `results` list:
`{'instance': name, 'zone': zone, 'action': action, 'result': result}`. -/
structure ActionRecord where
  instanceName : String
  zone : String
  action : String
  result : OpResult
  deriving Repr, DecidableEq

/-- One fold step of the per-instance loop: a skipped instance leaves the
accumulator unchanged; otherwise its record and its control-plane calls are
appended. -/
def runStep (cp : ControlPlane) (env : Env) (action : String)
    (acc : List ActionRecord × List CPCall) (inst : DiscoveredInstance) :
    List ActionRecord × List CPCall :=
  match processInstance cp env action inst with
  | none => acc
  | some p =>
      (acc.1 ++ [{ instanceName := inst.name, zone := inst.zone,
                   action := action, result := p.1 }],
       acc.2 ++ p.2)

/-- The per-instance loop of `process_scale_action` over the discovered
instances, in discovery order. -/
def runInstances (cp : ControlPlane) (env : Env) (action : String)
    (instances : List DiscoveredInstance) : List ActionRecord × List CPCall :=
  instances.foldl (runStep cp env action) ([], [])

/-- The dictionaries `process_scale_action` returns:
`{'error': ...}`, or `{'processed': n, 'results': rs}` with an optional
`'message'` field (present only in the no-instances branch). -/
inductive ScaleResult where
  | configError (error : String)
  | done (processed : Nat) (results : List ActionRecord) (message : Option String)
  deriving Repr, DecidableEq

/-- `process_scale_action`: resolves the project id (configuration error when
none), resolves labels and zones, discovers instances, returns the
no-instances message when discovery is empty, and otherwise runs the
per-instance loop. The second component is the trace of control-plane calls
the run made, in order. -/
def process_scale_action (cp : ControlPlane) (env : Env) (action : String)
    (project_id : Option String) (vm_labels : Option (List Label))
    (zones : Option (List String)) : ScaleResult × List CPCall :=
  match resolveProjectId env project_id with
  | none => (ScaleResult.configError "Project ID not configured", [])
  | some _ =>
      let labels := resolveVmLabels env vm_labels
      let zs := resolveZones env zones
      let disc := get_instances_by_labels cp zs labels
      if disc.1.isEmpty then
        (ScaleResult.done 0 [] (some "No instances found"), disc.2)
      else
        let run := runInstances cp env action disc.1
        (ScaleResult.done run.1.length run.1 none, disc.2 ++ run.2)

/-- The record the loop appends for one non-skipped instance, `none` for a
skipped one; used to characterize the loop as a `filterMap`. -/
def recordOf (cp : ControlPlane) (env : Env) (action : String)
    (inst : DiscoveredInstance) : Option ActionRecord :=
  (processInstance cp env action inst).map
    (fun p => { instanceName := inst.name, zone := inst.zone,
                action := action, result := p.1 })

/-- The control-plane calls one instance contributes to the trace. -/
def callsOf (cp : ControlPlane) (env : Env) (action : String)
    (inst : DiscoveredInstance) : List CPCall :=
  match processInstance cp env action inst with
  | none => []
  | some p => p.2

/-- A control plane on which every operation succeeds and which lists, in any
zone, the two-instance fleet of the spec scenario: `a` RUNNING and `b`
STOPPED, both labelled `auto-schedule:true`. -/
def cpTwo : ControlPlane where
  list := fun _ => Except.ok
    [{ name := "a", labels := [("auto-schedule", "true")], status := "RUNNING" },
     { name := "b", labels := [("auto-schedule", "true")], status := "STOPPED" }]
  stop := fun _ n => Except.ok ("stop-op-" ++ n)
  start := fun _ n => Except.ok ("start-op-" ++ n)
  suspend := fun _ n => Except.ok ("suspend-op-" ++ n)
  resume := fun _ n => Except.ok ("resume-op-" ++ n)

/-- A succeeding control plane listing a single instance that carries the
label pair `k:v` (used against an empty selector). -/
def cpLabelled : ControlPlane where
  list := fun _ => Except.ok
    [{ name := "x", labels := [("k", "v")], status := "RUNNING" }]
  stop := fun _ n => Except.ok ("stop-op-" ++ n)
  start := fun _ n => Except.ok ("start-op-" ++ n)
  suspend := fun _ n => Except.ok ("suspend-op-" ++ n)
  resume := fun _ n => Except.ok ("resume-op-" ++ n)

/-- A control plane whose listing fails in zone `z2` and succeeds elsewhere
with one matching instance. -/
def cpZoneFail : ControlPlane where
  list := fun z =>
    if z = "z2" then Except.error "zone unreachable"
    else Except.ok [{ name := "a", labels := [("auto-schedule", "true")], status := "RUNNING" }]
  stop := fun _ n => Except.ok ("stop-op-" ++ n)
  start := fun _ n => Except.ok ("start-op-" ++ n)
  suspend := fun _ n => Except.ok ("suspend-op-" ++ n)
  resume := fun _ n => Except.ok ("resume-op-" ++ n)

/-- A control plane listing three RUNNING instances whose stop operation
fails for `i2` only. -/
def cpStopFail : ControlPlane where
  list := fun _ => Except.ok
    [{ name := "i1", labels := [("auto-schedule", "true")], status := "RUNNING" },
     { name := "i2", labels := [("auto-schedule", "true")], status := "RUNNING" },
     { name := "i3", labels := [("auto-schedule", "true")], status := "RUNNING" }]
  stop := fun _ n => if n = "i2" then Except.error "quota exceeded" else Except.ok ("stop-op-" ++ n)
  start := fun _ n => Except.ok ("start-op-" ++ n)
  suspend := fun _ n => Except.ok ("suspend-op-" ++ n)
  resume := fun _ n => Except.ok ("resume-op-" ++ n)

/-- A succeeding control plane listing a single instance that has no labels
at all. -/
def cpUnlabelled : ControlPlane where
  list := fun _ => Except.ok [{ name := "u", labels := [], status := "RUNNING" }]
  stop := fun _ n => Except.ok ("stop-op-" ++ n)
  start := fun _ n => Except.ok ("start-op-" ++ n)
  suspend := fun _ n => Except.ok ("suspend-op-" ++ n)
  resume := fun _ n => Except.ok ("resume-op-" ++ n)

/-- A succeeding control plane listing a fleet that is entirely at rest. -/
def cpAllStopped : ControlPlane where
  list := fun _ => Except.ok
    [{ name := "s1", labels := [("auto-schedule", "true")], status := "STOPPED" },
     { name := "s2", labels := [("auto-schedule", "true")], status := "SUSPENDED" }]
  stop := fun _ n => Except.ok ("stop-op-" ++ n)
  start := fun _ n => Except.ok ("start-op-" ++ n)
  suspend := fun _ n => Except.ok ("suspend-op-" ++ n)
  resume := fun _ n => Except.ok ("resume-op-" ++ n)

/-- A three-instance discovered fleet, all RUNNING in zone `z1`. -/
def dFleet : List DiscoveredInstance :=
  [{ name := "i1", zone := "z1", status := "RUNNING" },
   { name := "i2", zone := "z1", status := "RUNNING" },
   { name := "i3", zone := "z1", status := "RUNNING" }]

/-- An environment with only the project id configured. -/
def envStd : Env where
  gcpProject := some "proj"
  vmLabels := none
  vmZones := none
  scaleDownAction := none
  scaleUpAction := none

/-- An environment whose `VM_LABELS` value contains no colon, so selector
resolution yields the empty selector; zones resolve to `z1`. -/
def envNoColon : Env where
  gcpProject := some "proj"
  vmLabels := some "nolabel"
  vmZones := some "z1"
  scaleDownAction := none
  scaleUpAction := none

/-- An environment with nothing configured at all. -/
def envEmpty : Env where
  gcpProject := none
  vmLabels := none
  vmZones := none
  scaleDownAction := none
  scaleUpAction := none

/-! Characterization lemmas for the folds. -/

theorem foldl_append_eq {α β : Type} (f : α → List β) (l : List α) :
    ∀ acc : List β, l.foldl (fun a x => a ++ f x) acc = acc ++ l.flatMap f := by
  induction l with
  | nil => intro acc; simp
  | cons x xs ih => intro acc; simp [ih, List.append_assoc]

theorem get_instances_fst (cp : ControlPlane) (zones : List String) (labels : List Label) :
    (get_instances_by_labels cp zones labels).1 = zones.flatMap (zoneDiscovery cp labels) := by
  simpa [get_instances_by_labels] using foldl_append_eq (zoneDiscovery cp labels) zones []

theorem get_instances_snd (cp : ControlPlane) (zones : List String) (labels : List Label) :
    (get_instances_by_labels cp zones labels).2 = zones.map CPCall.listCall := rfl

theorem runInstances_go (cp : ControlPlane) (env : Env) (action : String)
    (instances : List DiscoveredInstance) :
    ∀ (r : List ActionRecord) (c : List CPCall),
      instances.foldl (runStep cp env action) (r, c) =
        (r ++ instances.filterMap (recordOf cp env action),
         c ++ instances.flatMap (callsOf cp env action)) := by
  induction instances with
  | nil => intro r c; simp
  | cons i is ih =>
      intro r c
      cases h : processInstance cp env action i with
      | none => simp [runStep, h, ih, recordOf, callsOf]
      | some p => simp [runStep, h, ih, recordOf, callsOf, List.append_assoc]

theorem runInstances_eq (cp : ControlPlane) (env : Env) (action : String)
    (instances : List DiscoveredInstance) :
    runInstances cp env action instances =
      (instances.filterMap (recordOf cp env action),
       instances.flatMap (callsOf cp env action)) := by
  simpa [runInstances] using runInstances_go cp env action instances [] []

/-! Policy-table lemmas about the per-instance body. -/

theorem processInstance_skip_down (cp : ControlPlane) (env : Env) (inst : DiscoveredInstance)
    (h : inst.status ∈ restStates) :
    processInstance cp env "scale_down" inst = none := by
  simp [processInstance, h]

theorem processInstance_skip_up (cp : ControlPlane) (env : Env) (inst : DiscoveredInstance)
    (h : inst.status = "RUNNING") :
    processInstance cp env "scale_up" inst = none := by
  simp [processInstance, h]

theorem processInstance_down_act (cp : ControlPlane) (env : Env) (inst : DiscoveredInstance)
    (h : inst.status ∉ restStates) :
    processInstance cp env "scale_down" inst =
      (if env.scaleDownAction.getD "STOP" = "SUSPEND"
       then some (suspend_instance cp inst.zone inst.name, [CPCall.suspendCall inst.zone inst.name])
       else some (stop_instance cp inst.zone inst.name, [CPCall.stopCall inst.zone inst.name])) := by
  by_cases hs : env.scaleDownAction.getD "STOP" = "SUSPEND" <;>
    simp [processInstance, h, hs]

theorem processInstance_up_act (cp : ControlPlane) (env : Env) (inst : DiscoveredInstance)
    (h : inst.status ≠ "RUNNING") :
    processInstance cp env "scale_up" inst =
      (if env.scaleUpAction.getD "START" = "RESUME"
       then some (resume_instance cp inst.zone inst.name, [CPCall.resumeCall inst.zone inst.name])
       else some (start_instance cp inst.zone inst.name, [CPCall.startCall inst.zone inst.name])) := by
  by_cases hs : env.scaleUpAction.getD "START" = "RESUME" <;>
    simp [processInstance, h, hs]

theorem processInstance_unknown (cp : ControlPlane) (env : Env) (action : String)
    (inst : DiscoveredInstance) (h1 : action ≠ "scale_down") (h2 : action ≠ "scale_up") :
    processInstance cp env action inst =
      some (OpResult.error ("Unknown action: " ++ action), []) := by
  simp [processInstance, h1, h2]

/-- Claim C4 counterexample: at empty instance labels and empty selector the
matcher returns false although every selector pair (vacuously) matches, so
the claimed equivalence fails at this input. -/
theorem C4_counterexample :
    matchesLabels [] [] = false ∧
      ∀ l : Label, l ∈ ([] : List Label) →
        ([] : List (String × String)).lookup l.key = some l.value := by
  exact ⟨rfl, by simp⟩

/-- Claim C4, amended: the matcher returns true iff the instance label
mapping is non-empty and every selector pair is present with equal value; an
empty label mapping yields false for every selector, the empty one included. -/
theorem C4_matches_iff (L : List (String × String)) (S : List Label) :
    matchesLabels L S = true ↔
      (L ≠ [] ∧ ∀ l ∈ S, L.lookup l.key = some l.value) := by
  cases L with
  | nil => simp [matchesLabels]
  | cons p ps => simp [matchesLabels, List.all_eq_true]

/-- Witness for C4_matches_iff at a concrete matching pair. -/
theorem C4_matches_iff_witness :
    matchesLabels [("a", "b")] [{ key := "a", value := "b" }] = true :=
  (C4_matches_iff [("a", "b")] [{ key := "a", value := "b" }]).mpr
    ⟨by decide, by decide⟩

/-- Claim C9: when no project id is resolvable from the request or the
environment, the run returns the configuration-error result and makes no
control-plane call at all (in particular listing is never invoked). -/
theorem C9_configError (cp : ControlPlane) (env : Env) (action : String)
    (project_id : Option String) (vm_labels : Option (List Label))
    (zones : Option (List String)) (h : resolveProjectId env project_id = none) :
    process_scale_action cp env action project_id vm_labels zones =
      (ScaleResult.configError "Project ID not configured", []) := by
  unfold process_scale_action
  rw [h]

/-- Witness for C9_configError with an unconfigured environment. -/
theorem C9_configError_witness :
    process_scale_action cpTwo envEmpty "scale_down" none none none =
      (ScaleResult.configError "Project ID not configured", []) :=
  C9_configError cpTwo envEmpty "scale_down" none none none rfl

theorem process_result_cases (cp : ControlPlane) (env : Env) (action : String)
    (project_id : Option String) (vm_labels : Option (List Label))
    (zones : Option (List String)) :
    process_scale_action cp env action project_id vm_labels zones =
        (ScaleResult.configError "Project ID not configured", []) ∨
      (process_scale_action cp env action project_id vm_labels zones).1 =
        ScaleResult.done 0 [] (some "No instances found") ∨
      ∃ recs, (process_scale_action cp env action project_id vm_labels zones).1 =
        ScaleResult.done recs.length recs none := by
  unfold process_scale_action
  cases hp : resolveProjectId env project_id with
  | none => left; rfl
  | some pid =>
      by_cases he :
          (get_instances_by_labels cp (resolveZones env zones) (resolveVmLabels env vm_labels)).1.isEmpty
      · right; left; simp [he]
      · right; right
        exact ⟨(runInstances cp env action
            (get_instances_by_labels cp (resolveZones env zones) (resolveVmLabels env vm_labels)).1).1,
          by simp [he]⟩

/-- Claim C10: every result of a run that reaches discovery reports a
processed count equal to the length of its results list. -/
theorem C10_processed_eq_length (cp : ControlPlane) (env : Env) (action : String)
    (project_id : Option String) (vm_labels : Option (List Label))
    (zones : Option (List String)) :
    ∀ (n : Nat) (results : List ActionRecord) (m : Option String),
      (process_scale_action cp env action project_id vm_labels zones).1 =
        ScaleResult.done n results m → n = results.length := by
  intro n results m h
  rcases process_result_cases cp env action project_id vm_labels zones with h0 | h0 | ⟨recs, h0⟩
  · rw [h0] at h
    exact absurd h (by simp)
  · obtain ⟨h1, h2, _⟩ := ScaleResult.done.inj (h0.symm.trans h)
    rw [← h1, ← h2]
    rfl
  · obtain ⟨h1, h2, _⟩ := ScaleResult.done.inj (h0.symm.trans h)
    rw [← h1, ← h2]

/-- Witness for C10_processed_eq_length at the two-instance scenario run. -/
theorem C10_witness :
    (1 : Nat) =
      [({ instanceName := "a", zone := "z1", action := "scale_down",
          result := OpResult.success "stop-op-a" } : ActionRecord)].length :=
  C10_processed_eq_length cpTwo envStd "scale_down" (some "p")
    (some [{ key := "auto-schedule", value := "true" }]) (some ["z1"]) 1 _ none (by decide)

/-- Claim C3: the action decision follows the policy table exactly: under
scale_down an instance is skipped iff its state is in the rest set and
otherwise the configured scale-down operation is invoked; under scale_up it
is skipped iff RUNNING and otherwise the configured scale-up operation is
invoked. -/
theorem C3_policy_table (cp : ControlPlane) (env : Env) (inst : DiscoveredInstance) :
    (processInstance cp env "scale_down" inst = none ↔ inst.status ∈ restStates) ∧
    (processInstance cp env "scale_up" inst = none ↔ inst.status = "RUNNING") ∧
    (inst.status ∉ restStates →
      processInstance cp env "scale_down" inst =
        (if env.scaleDownAction.getD "STOP" = "SUSPEND"
         then some (suspend_instance cp inst.zone inst.name, [CPCall.suspendCall inst.zone inst.name])
         else some (stop_instance cp inst.zone inst.name, [CPCall.stopCall inst.zone inst.name]))) ∧
    (inst.status ≠ "RUNNING" →
      processInstance cp env "scale_up" inst =
        (if env.scaleUpAction.getD "START" = "RESUME"
         then some (resume_instance cp inst.zone inst.name, [CPCall.resumeCall inst.zone inst.name])
         else some (start_instance cp inst.zone inst.name, [CPCall.startCall inst.zone inst.name]))) := by
  refine ⟨⟨fun h => ?_, processInstance_skip_down cp env inst⟩,
          ⟨fun h => ?_, processInstance_skip_up cp env inst⟩,
          processInstance_down_act cp env inst,
          processInstance_up_act cp env inst⟩
  · by_contra hmem
    rw [processInstance_down_act cp env inst hmem] at h
    split at h <;> exact Option.noConfusion h
  · by_contra hr
    rw [processInstance_up_act cp env inst hr] at h
    split at h <;> exact Option.noConfusion h

/-- Witness for C3_policy_table: concrete skip and dispatch decisions. -/
theorem C3_policy_table_witness :
    processInstance cpTwo envStd "scale_down"
        { name := "b", zone := "z1", status := "STOPPED" } = none ∧
    processInstance cpTwo envStd "scale_down"
        { name := "a", zone := "z1", status := "RUNNING" } =
      some (stop_instance cpTwo "z1" "a", [CPCall.stopCall "z1" "a"]) := by
  constructor
  · exact (C3_policy_table cpTwo envStd { name := "b", zone := "z1", status := "STOPPED" }).1.mpr
      (by decide)
  · have h := (C3_policy_table cpTwo envStd
      { name := "a", zone := "z1", status := "RUNNING" }).2.2.1 (by decide)
    simpa using h

theorem filterMap_eq_map_of {α β : Type} (l : List α) (f : α → Option β) (g : α → β)
    (h : ∀ a ∈ l, f a = some (g a)) : l.filterMap f = l.map g := by
  induction l with
  | nil => rfl
  | cons x xs ih =>
      rw [List.filterMap_cons, h x (List.mem_cons_self x xs), List.map_cons,
        ih (fun a ha => h a (List.mem_cons_of_mem x ha))]

theorem length_filterMap_of_some {α β : Type} (l : List α) (f : α → Option β)
    (h : ∀ a ∈ l, f a ≠ none) : (l.filterMap f).length = l.length := by
  induction l with
  | nil => rfl
  | cons x xs ih =>
      cases hx : f x with
      | none => exact absurd hx (h x (List.mem_cons_self x xs))
      | some b =>
          rw [List.filterMap_cons, hx]
          simp [ih (fun a ha => h a (List.mem_cons_of_mem x ha))]

/-- Claim C1 counterexample: the spec scenario (two instances `a` RUNNING and
`b` STOPPED, action scale_down, succeeding control plane) yields processed
count 1 with a single outcome for `a`; the skipped instance `b` is recorded
in no outcome at all, contradicting the claimed SKIPPED entry. -/
theorem C1_counterexample :
    process_scale_action cpTwo envStd "scale_down" (some "p")
        (some [{ key := "auto-schedule", value := "true" }]) (some ["z1"]) =
      (ScaleResult.done 1
        [{ instanceName := "a", zone := "z1", action := "scale_down",
           result := OpResult.success "stop-op-a" }] none,
       [CPCall.listCall "z1", CPCall.stopCall "z1" "a"]) := by
  decide

/-- Claim C1, amended: an instance whose state makes the policy skip it under
scale_down contributes no outcome record (skips are only logged); the loop's
outcomes are exactly the records of non-skipped instances, and the scenario
fleet yields processed count 1 with the single SUCCESS outcome for `a`. -/
theorem C1_skip_not_recorded :
    (∀ (cp : ControlPlane) (env : Env) (inst : DiscoveredInstance),
      inst.status ∈ restStates → recordOf cp env "scale_down" inst = none) ∧
    (∀ (cp : ControlPlane) (env : Env) (action : String)
        (instances : List DiscoveredInstance),
      (runInstances cp env action instances).1 =
        instances.filterMap (recordOf cp env action)) ∧
    (process_scale_action cpTwo envStd "scale_down" (some "p")
        (some [{ key := "auto-schedule", value := "true" }]) (some ["z1"])).1 =
      ScaleResult.done 1
        [{ instanceName := "a", zone := "z1", action := "scale_down",
           result := OpResult.success "stop-op-a" }] none := by
  refine ⟨fun cp env inst h => ?_, fun cp env action instances => ?_, by decide⟩
  · simp [recordOf, processInstance_skip_down cp env inst h]
  · rw [runInstances_eq]

/-- Witness for C1_skip_not_recorded: the STOPPED instance `b` contributes no
record. -/
theorem C1_skip_not_recorded_witness :
    recordOf cpTwo envStd "scale_down" { name := "b", zone := "z1", status := "STOPPED" } = none :=
  C1_skip_not_recorded.1 cpTwo envStd { name := "b", zone := "z1", status := "STOPPED" } (by decide)

/-- Claim C2 counterexample: with `VM_LABELS` resolving to an empty selector,
a listed instance carrying the label `k:v` is matched and acted upon: the run
stops it and returns processed count 1, not the claimed no-op result. -/
theorem C2_counterexample :
    resolveVmLabels envNoColon none = [] ∧
    process_scale_action cpLabelled envNoColon "scale_down" none none none =
      (ScaleResult.done 1
        [{ instanceName := "x", zone := "z1", action := "scale_down",
           result := OpResult.success "stop-op-x" }] none,
       [CPCall.listCall "z1", CPCall.stopCall "z1" "x"]) := by
  exact ⟨by decide, by decide⟩

/-- Claim C2, amended: an empty selector matches exactly the instances whose
label mapping is non-empty; a run whose selector resolves empty returns the
no-op result only when every instance the control plane lists has an empty
label mapping. -/
theorem C2_empty_selector :
    (∀ L : List (String × String), matchesLabels L [] = !L.isEmpty) ∧
    (∀ (cp : ControlPlane) (env : Env) (action : String) (project_id : Option String)
        (zones : Option (List String)) (pid : String),
      resolveProjectId env project_id = some pid →
      resolveVmLabels env none = [] →
      (∀ z insts, cp.list z = Except.ok insts → ∀ i ∈ insts, i.labels = []) →
      (process_scale_action cp env action project_id none zones).1 =
        ScaleResult.done 0 [] (some "No instances found")) := by
  constructor
  · intro L
    cases L <;> simp [matchesLabels]
  · intro cp env action project_id zones pid hp hsel hall
    have hdisc :
        (get_instances_by_labels cp (resolveZones env zones) (resolveVmLabels env none)).1 = [] := by
      rw [get_instances_fst]
      refine List.flatMap_eq_nil_iff.mpr fun z _ => ?_
      cases hl : cp.list z with
      | error e => simp [zoneDiscovery, hl]
      | ok insts =>
          have hm : ∀ i ∈ insts, matchesLabels i.labels (resolveVmLabels env none) = false := by
            intro i hi
            rw [hsel, hall z insts hl i hi]
            rfl
          simp only [zoneDiscovery, hl, List.map_eq_nil_iff]
          exact List.filter_eq_nil_iff.mpr fun i hi => by simp [hm i hi]
    unfold process_scale_action
    rw [hp]
    simp [hdisc]

/-- Witness for C2_empty_selector: an unlabelled fleet under the colon-free
`VM_LABELS` environment produces the no-op result. -/
theorem C2_empty_selector_witness :
    (process_scale_action cpUnlabelled envNoColon "scale_down" none none none).1 =
      ScaleResult.done 0 [] (some "No instances found") := by
  refine C2_empty_selector.2 cpUnlabelled envNoColon "scale_down" none none "proj" rfl (by decide)
    fun z insts h i hi => ?_
  have hinsts : insts = [{ name := "u", labels := [], status := "RUNNING" }] :=
    (Except.ok.inj h).symm
  rw [hinsts] at hi
  simp only [List.mem_singleton] at hi
  rw [hi]

/-- Claim C5: a run over a fleet already entirely in the desired state (all
at rest under scale_down, or all RUNNING under scale_up) performs no
control-plane operation — its trace is exactly the discovery listing calls —
and returns processed count 0 with an empty outcomes list (so every outcome
trivially has no non-SKIPPED status). -/
theorem C5_idempotent (cp : ControlPlane) (env : Env) (action : String)
    (project_id : Option String) (vm_labels : Option (List Label))
    (zones : Option (List String)) (pid : String)
    (hp : resolveProjectId env project_id = some pid)
    (hall :
      (action = "scale_down" ∧
        ∀ i ∈ (get_instances_by_labels cp (resolveZones env zones)
            (resolveVmLabels env vm_labels)).1, i.status ∈ restStates) ∨
      (action = "scale_up" ∧
        ∀ i ∈ (get_instances_by_labels cp (resolveZones env zones)
            (resolveVmLabels env vm_labels)).1, i.status = "RUNNING")) :
    (∃ m : Option String,
      (process_scale_action cp env action project_id vm_labels zones).1 =
        ScaleResult.done 0 [] m) ∧
    (process_scale_action cp env action project_id vm_labels zones).2 =
      (resolveZones env zones).map CPCall.listCall := by
  have hnone : ∀ i ∈ (get_instances_by_labels cp (resolveZones env zones)
      (resolveVmLabels env vm_labels)).1, processInstance cp env action i = none := by
    rcases hall with ⟨ha, h⟩ | ⟨ha, h⟩ <;> subst ha <;> intro i hi
    · exact processInstance_skip_down cp env i (h i hi)
    · exact processInstance_skip_up cp env i (h i hi)
  have hrun : runInstances cp env action (get_instances_by_labels cp (resolveZones env zones)
      (resolveVmLabels env vm_labels)).1 = ([], []) := by
    rw [runInstances_eq]
    refine Prod.ext ?_ ?_
    · exact List.filterMap_eq_nil_iff.mpr fun i hi => by simp [recordOf, hnone i hi]
    · exact List.flatMap_eq_nil_iff.mpr fun i hi => by simp [callsOf, hnone i hi]
  unfold process_scale_action
  rw [hp]
  by_cases he : (get_instances_by_labels cp (resolveZones env zones)
      (resolveVmLabels env vm_labels)).1.isEmpty
  · exact ⟨⟨some "No instances found", by simp [he]⟩, by simp [he, get_instances_snd]⟩
  · exact ⟨⟨none, by simp [he, hrun]⟩, by simp [he, hrun, get_instances_snd]⟩

/-- Witness for C5_idempotent: a fleet with one STOPPED and one SUSPENDED
instance under scale_down. -/
theorem C5_idempotent_witness :
    (∃ m : Option String,
      (process_scale_action cpAllStopped envStd "scale_down" (some "p")
        (some [{ key := "auto-schedule", value := "true" }]) (some ["z1"])).1 =
        ScaleResult.done 0 [] m) ∧
    (process_scale_action cpAllStopped envStd "scale_down" (some "p")
        (some [{ key := "auto-schedule", value := "true" }]) (some ["z1"])).2 =
      (resolveZones envStd (some ["z1"])).map CPCall.listCall :=
  C5_idempotent cpAllStopped envStd "scale_down" (some "p")
    (some [{ key := "auto-schedule", value := "true" }]) (some ["z1"]) "p" rfl
    (Or.inl ⟨rfl, by decide⟩)

/-- Claim C6: an action outside scale_up and scale_down makes every
discovered instance yield an ERROR outcome carrying the unknown-action
message, invokes no control-plane operation beyond discovery, and still
returns a processed count equal to the fleet size. -/
theorem C6_unknown_action (cp : ControlPlane) (env : Env) (action : String)
    (project_id : Option String) (vm_labels : Option (List Label))
    (zones : Option (List String)) (pid : String)
    (hp : resolveProjectId env project_id = some pid)
    (h1 : action ≠ "scale_down") (h2 : action ≠ "scale_up")
    (hne : (get_instances_by_labels cp (resolveZones env zones)
        (resolveVmLabels env vm_labels)).1 ≠ []) :
    (process_scale_action cp env action project_id vm_labels zones).1 =
      ScaleResult.done
        (get_instances_by_labels cp (resolveZones env zones)
          (resolveVmLabels env vm_labels)).1.length
        ((get_instances_by_labels cp (resolveZones env zones)
            (resolveVmLabels env vm_labels)).1.map
          (fun i => { instanceName := i.name, zone := i.zone, action := action,
                      result := OpResult.error ("Unknown action: " ++ action) }))
        none ∧
    (process_scale_action cp env action project_id vm_labels zones).2 =
      (resolveZones env zones).map CPCall.listCall := by
  have hrun : runInstances cp env action (get_instances_by_labels cp (resolveZones env zones)
      (resolveVmLabels env vm_labels)).1 =
      ((get_instances_by_labels cp (resolveZones env zones)
          (resolveVmLabels env vm_labels)).1.map
        (fun i => { instanceName := i.name, zone := i.zone, action := action,
                    result := OpResult.error ("Unknown action: " ++ action) }), []) := by
    rw [runInstances_eq]
    refine Prod.ext ?_ ?_
    · exact filterMap_eq_map_of _ _ _ fun i _ => by
        simp [recordOf, processInstance_unknown cp env action i h1 h2]
    · exact List.flatMap_eq_nil_iff.mpr fun i _ => by
        simp [callsOf, processInstance_unknown cp env action i h1 h2]
  have he : ¬ (get_instances_by_labels cp (resolveZones env zones)
      (resolveVmLabels env vm_labels)).1.isEmpty := by
    simpa [List.isEmpty_iff] using hne
  unfold process_scale_action
  rw [hp]
  constructor
  · simp [he, hrun]
  · simp [he, hrun, get_instances_snd]

/-- Witness for C6_unknown_action at the action string `restart`. -/
theorem C6_unknown_action_witness :
    (process_scale_action cpTwo envStd "restart" (some "p")
        (some [{ key := "auto-schedule", value := "true" }]) (some ["z1"])).1 =
      ScaleResult.done
        (get_instances_by_labels cpTwo (resolveZones envStd (some ["z1"]))
          (resolveVmLabels envStd (some [{ key := "auto-schedule", value := "true" }]))).1.length
        ((get_instances_by_labels cpTwo (resolveZones envStd (some ["z1"]))
            (resolveVmLabels envStd (some [{ key := "auto-schedule", value := "true" }]))).1.map
          (fun i => { instanceName := i.name, zone := i.zone, action := "restart",
                      result := OpResult.error ("Unknown action: " ++ "restart") }))
        none ∧
    (process_scale_action cpTwo envStd "restart" (some "p")
        (some [{ key := "auto-schedule", value := "true" }]) (some ["z1"])).2 =
      (resolveZones envStd (some ["z1"])).map CPCall.listCall :=
  C6_unknown_action cpTwo envStd "restart" (some "p")
    (some [{ key := "auto-schedule", value := "true" }]) (some ["z1"]) "p" rfl
    (by decide) (by decide) (by decide)

/-- Claim C7: per-zone partial-failure isolation: when listing succeeds for
zone `z1` and fails for zone `z2`, every matching instance of `z1` is still
discovered, and no discovered instance comes from `z2` (the failing zone
contributes zero instances); the discovery call itself is total, so no
exception escapes it. -/
theorem C7_zone_isolation (cp : ControlPlane) (zones : List String)
    (labels : List Label) (z1 z2 : String) (l1 : List VMInstance) (e : String)
    (h1 : cp.list z1 = Except.ok l1) (h2 : cp.list z2 = Except.error e)
    (hz : z1 ∈ zones) :
    (∀ i ∈ l1, matchesLabels i.labels labels = true →
      ({ name := i.name, zone := z1, status := i.status } : DiscoveredInstance) ∈
        (get_instances_by_labels cp zones labels).1) ∧
    (∀ d ∈ (get_instances_by_labels cp zones labels).1, d.zone ≠ z2) := by
  constructor
  · intro i hi hm
    rw [get_instances_fst]
    refine List.mem_flatMap.mpr ⟨z1, hz, ?_⟩
    simp only [zoneDiscovery, h1, List.mem_map, List.mem_filter]
    exact ⟨i, ⟨hi, hm⟩, rfl⟩
  · intro d hd
    rw [get_instances_fst] at hd
    obtain ⟨z, hzmem, hdz⟩ := List.mem_flatMap.mp hd
    cases hl : cp.list z with
    | error e2 => simp [zoneDiscovery, hl] at hdz
    | ok insts =>
        simp only [zoneDiscovery, hl, List.mem_map, List.mem_filter] at hdz
        obtain ⟨i, _, hmk⟩ := hdz
        intro hcontra
        have hzz : z = z2 := by rw [← hmk] at hcontra; exact hcontra
        rw [hzz, h2] at hl
        exact Except.noConfusion hl

/-- Witness for C7_zone_isolation: the matching instance of the healthy zone
is discovered although the other zone's listing fails. -/
theorem C7_zone_isolation_witness :
    ({ name := "a", zone := "z1", status := "RUNNING" } : DiscoveredInstance) ∈
      (get_instances_by_labels cpZoneFail ["z1", "z2"]
        [{ key := "auto-schedule", value := "true" }]).1 :=
  (C7_zone_isolation cpZoneFail ["z1", "z2"]
      [{ key := "auto-schedule", value := "true" }] "z1" "z2"
      [{ name := "a", labels := [("auto-schedule", "true")], status := "RUNNING" }]
      "zone unreachable" rfl rfl (by decide)).1
    { name := "a", labels := [("auto-schedule", "true")], status := "RUNNING" }
    (by decide) (by decide)

/-- Claim C8: per-instance isolation: over a fleet in which every instance
needs action, the loop records exactly one outcome per instance (it never
stops early), each instance's outcome is the one computed from its own
operation result, and a failing control-plane operation surfaces as an ERROR
outcome carrying the failure message rather than an exception. -/
theorem C8_instance_isolation (cp : ControlPlane) (env : Env) (action : String)
    (instances : List DiscoveredInstance)
    (hall : ∀ i ∈ instances, processInstance cp env action i ≠ none) :
    ((runInstances cp env action instances).1.length = instances.length) ∧
    (∀ i ∈ instances, ∀ p, processInstance cp env action i = some p →
      ({ instanceName := i.name, zone := i.zone, action := action,
         result := p.1 } : ActionRecord) ∈ (runInstances cp env action instances).1) ∧
    (∀ zone n msg, cp.stop zone n = Except.error msg →
      stop_instance cp zone n = OpResult.error msg) ∧
    (∀ zone n msg, cp.start zone n = Except.error msg →
      start_instance cp zone n = OpResult.error msg) ∧
    (∀ zone n msg, cp.suspend zone n = Except.error msg →
      suspend_instance cp zone n = OpResult.error msg) ∧
    (∀ zone n msg, cp.resume zone n = Except.error msg →
      resume_instance cp zone n = OpResult.error msg) := by
  refine ⟨?_, ?_, ?_, ?_, ?_, ?_⟩
  · rw [runInstances_eq]
    exact length_filterMap_of_some instances _ fun i hi => by
      simpa [recordOf] using hall i hi
  · intro i hi p hp
    rw [runInstances_eq]
    exact List.mem_filterMap.mpr ⟨i, hi, by simp [recordOf, hp]⟩
  · intro zone n msg h; simp [stop_instance, h]
  · intro zone n msg h; simp [start_instance, h]
  · intro zone n msg h; simp [suspend_instance, h]
  · intro zone n msg h; simp [resume_instance, h]

/-- Witness for C8_instance_isolation: the three-instance fleet whose middle
stop fails still yields three outcomes, with the failure recorded as the
ERROR outcome of `i2` alone. -/
theorem C8_instance_isolation_witness :
    (runInstances cpStopFail envStd "scale_down" dFleet).1.length = dFleet.length ∧
    ({ instanceName := "i2", zone := "z1", action := "scale_down",
       result := OpResult.error "quota exceeded" } : ActionRecord) ∈
      (runInstances cpStopFail envStd "scale_down" dFleet).1 := by
  have h := C8_instance_isolation cpStopFail envStd "scale_down" dFleet (by decide)
  refine ⟨h.1, ?_⟩
  have hm := h.2.1 { name := "i2", zone := "z1", status := "RUNNING" } (by decide)
    (stop_instance cpStopFail "z1" "i2", [CPCall.stopCall "z1" "i2"]) (by decide)
  simpa using hm

end CloudScheduler
